import Mathlib

set_option autoImplicit false

/-!
Shallow embedding of the core of the `xctl` repository (an Xray-core
management tool written in Python) and proofs about it.

The configuration document is an untyped JSON tree (`json.load` result);
we model it as the inductive type `JValue`.  Python runtime behaviours are
modelled as follows:

* `dict.get(k)` / `dict.get(k, default)` become `JValue.get` (an `Option`);
  calling `.get` on a non-dict value is modelled as returning `none`
  (Python would raise `AttributeError`; no claim exercises that path on a
  document that is well-formed JSON at the accessed spot).
* `d[k]` subscription becomes `JValue.index`, returning `Except` with a
  key error for a missing key and a type error for a non-dict receiver.
* raised exceptions become values of `PyError` threaded through `Except`.
* filesystem and container side effects are an explicit `World` state plus
  an ordered event trace (see below).
-/

inductive JValue where
  | null : JValue
  | bool : Bool → JValue
  | num : Int → JValue
  | str : String → JValue
  | arr : List JValue → JValue
  | obj : List (String × JValue) → JValue

inductive PyError where
  | xrayError : String → PyError
  | valueError : String → PyError
  | configNotFound : String → PyError
  | dockerOpError : String → PyError
  | keyError : String → PyError
  | indexError : String → PyError
  | typeError : String → PyError
deriving DecidableEq

/-- First binding of a key in an association list (Python dicts have unique
keys, and `dict.get` / `d[k]` return that unique binding). -/
def fieldGet : List (String × JValue) → String → Option JValue
  | [], _ => none
  | (k, v) :: rest, key => if k = key then some v else fieldGet rest key

/-- Python `value.get(key)` for dict values; `none` for a missing key and
for non-dict receivers. -/
def JValue.get : JValue → String → Option JValue
  | .obj fields, key => fieldGet fields key
  | _, _ => none

/-- Python `value[key]` subscription on dicts. -/
def JValue.index : JValue → String → Except PyError JValue
  | .obj fields, key =>
    match fieldGet fields key with
    | some v => .ok v
    | none => .error (.keyError key)
  | _, key => .error (.typeError ("value is not subscriptable: " ++ key))

/-- Python iteration over a value that the code expects to be a list. -/
def JValue.asList : JValue → Except PyError (List JValue)
  | .arr xs => .ok xs
  | _ => .error (.typeError "value is not a list")

/-- Python `value[0]` on a list value. -/
def JValue.at0 : JValue → Except PyError JValue
  | .arr (x :: _) => .ok x
  | .arr [] => .error (.indexError "list index out of range")
  | _ => .error (.typeError "value is not a list")

/-- Python truthiness of a JSON value. -/
def JValue.truthy : JValue → Bool
  | .null => false
  | .bool b => b
  | .num n => n ≠ 0
  | .str s => s ≠ ""
  | .arr xs => ¬ xs.isEmpty
  | .obj fields => ¬ fields.isEmpty

/-- Python `str(...)` of a JSON scalar as used in f-string interpolation.
The fields interpolated by the code (port, sni, sid, fingerprint, spiderX)
are scalars in every document the theorems touch; composite values get a
simplified rendering. -/
def pyStr : JValue → String
  | .null => "None"
  | .bool b => if b then "True" else "False"
  | .num n => toString n
  | .str s => s
  | .arr _ => "<list>"
  | .obj _ => "<dict>"

/-- Python `v == s` comparison of a looked-up JSON value against a string
literal: true exactly when the value is present, is a string, and equals
`s` (comparison against a missing or non-string value is `False`). -/
def jStrEq : Option JValue → String → Bool
  | some (.str s), t => s = t
  | _, _ => false

/-- Prefix test on character lists (structurally recursive, so concrete
instances evaluate inside the kernel). -/
def charsPrefix : List Char → List Char → Bool
  | [], _ => true
  | _ :: _, [] => false
  | a :: as, b :: bs => a == b && charsPrefix as bs

/-- Worker for `pySplit`: scan left to right, splitting at each
non-overlapping occurrence of `sep`; the fuel argument only makes the
recursion structural (it never runs out when started at `length + 1`). -/
def pySplitGo (sep : List Char) : Nat → List Char → List Char → List (List Char)
  | _, [], acc => [acc.reverse]
  | 0, l, acc => [acc.reverse ++ l]
  | fuel + 1, c :: rest, acc =>
    if charsPrefix sep (c :: rest) then
      acc.reverse :: pySplitGo sep fuel ((c :: rest).drop sep.length) []
    else
      pySplitGo sep fuel rest (c :: acc)

/-- Python `s.split(sep)` for a non-empty separator (also the behaviour of
`str.split` used via `"x" in s` tests: `sep` occurs in `s` iff the split
has more than one part). -/
def pySplit (s sep : String) : List String :=
  if sep = "" then [s]
  else (pySplitGo sep.data (s.data.length + 1) s.data []).map List.asString

/-- Python `s.strip()`: remove leading and trailing whitespace. -/
def pyStrip (s : String) : String :=
  ((s.data.dropWhile Char.isWhitespace).reverse.dropWhile
    Char.isWhitespace).reverse.asString

/-- The selector shared by both inbound-lookup implementations:
`inbound.get('protocol') == 'vless'` and
`inbound.get('streamSettings', {}).get('security') == 'reality'`. -/
def isRealityInbound (inbound : JValue) : Bool :=
  jStrEq (inbound.get "protocol") "vless" &&
    jStrEq (((inbound.get "streamSettings").getD (.obj [])).get "security") "reality"

/-- Embedding of `RealityHandler.find_inbound` (src/core/protocols/reality.py):
scan `config.get('inbounds', [])` for the first entry with
`protocol == 'vless'` and `streamSettings.security == 'reality'`. -/
def RealityHandler_find_inbound (config : JValue) : Except PyError JValue :=
  match ((config.get "inbounds").getD (.arr [])).asList with
  | .error e => .error e
  | .ok inbounds =>
    match inbounds.find? isRealityInbound with
    | some inbound => .ok inbound
    | none => .error (.xrayError "No VLESS+Reality inbound found in configuration.")

/-- Embedding of `UserService._find_vless_inbound`
(src/services/user_service.py): the independent second implementation of
the same scan, differing only in its error message. -/
def UserService_find_vless_inbound (config : JValue) : Except PyError JValue :=
  match ((config.get "inbounds").getD (.arr [])).asList with
  | .error e => .error e
  | .ok inbounds =>
    match inbounds.find? isRealityInbound with
    | some inbound => .ok inbound
    | none => .error (.xrayError "No VLESS+Reality inbound found in config.json")

/-!
## Filesystem / container world state

`World` models the externally visible state the repository code touches:
the live config file (its parsed content; `none` = absent), the backup
directory (file name to content), the advisory lock, and an ordered trace
of side effects.  The modelled platform is the non-Windows branch of
`ConfigRepository.atomic_write` (the `fcntl` path).  Effects on the Docker
container are modelled as trace events only; the claims under study do not
depend on container failure modes.
-/

inductive Event where
  | lockAcquire : Event
  | lockRelease : Event
  | backupCreate : String → Event
  | fileWrite : Event
  | restart : Event
  | reloadSignal : Event
deriving DecidableEq

structure World where
  config : Option JValue
  backups : List (String × JValue)
  lockHeld : Bool
  events : List Event

/-- Embedding of `ConfigRepository.load`: fail with `ConfigNotFoundError`
when the file is absent, otherwise return the parsed document.  (The file,
when present, is modelled as already-parsed JSON; a `JsonDecodeError` file
state is not representable and no claim needs it.) -/
def ConfigRepository_load (w : World) : Except PyError JValue :=
  match w.config with
  | none => .error (.configNotFound "File not found")
  | some doc => .ok doc

/-- Embedding of `ConfigRepository.save`: overwrite the live file. -/
def ConfigRepository_save (w : World) (doc : JValue) : World :=
  { w with config := some doc, events := w.events ++ [.fileWrite] }

/-- `shutil.copy2(live, backup_path)`: (over)write the named backup file. -/
def putBackup (bs : List (String × JValue)) (name : String) (content : JValue) :
    List (String × JValue) :=
  bs.filter (fun p => p.1 ≠ name) ++ [(name, content)]

/-- The backup file name `config.<timestamp>.json`. -/
def backupName (timestamp : String) : String :=
  "config." ++ timestamp ++ ".json"

/-- Embedding of `ConfigRepository._create_backup`.  `now` is the
timestamp string `datetime.now().strftime(...)`; `canDelete` is the
deletion oracle (an `unlink` whose `OSError` the code swallows is a name
on which `canDelete` is `false`).  The `while len(backups) > 10` loop pops
the lexicographically smallest names from the sorted listing and attempts
to delete each, ignoring failures. -/
def ConfigRepository_create_backup (canDelete : String → Bool) (now : String)
    (w : World) : World :=
  match w.config with
  | none => w
  | some content =>
    let name := backupName now
    let bs1 := putBackup w.backups name content
    let sortedNames := (bs1.map Prod.fst).insertionSort (· ≤ ·)
    let toDelete := (sortedNames.take (sortedNames.length - 10)).filter canDelete
    { w with
        backups := bs1.filter (fun p => !(toDelete.contains p.1)),
        events := w.events ++ [.backupCreate name] }

/-- The `fcntl.flock(lockfile, fcntl.LOCK_EX)` acquisition. -/
def lockWorld (w : World) : World :=
  { w with lockHeld := true, events := w.events ++ [.lockAcquire] }

/-- The `finally: fcntl.flock(lockfile, fcntl.LOCK_UN)` release. -/
def unlockWorld (w : World) : World :=
  { w with lockHeld := false, events := w.events ++ [.lockRelease] }

/-- Embedding of `ConfigRepository.atomic_write` (the `fcntl` branch): take
the exclusive lock, create a backup, load, run the caller's block on the
document, save on normal completion, and release the lock on every exit
path.  The caller's in-place mutation is modelled by the block returning
the mutated document together with its result. -/
def ConfigRepository_atomic_write {α : Type} (canDelete : String → Bool)
    (now : String) (w : World) (block : JValue → Except PyError (JValue × α)) :
    Except PyError α × World :=
  match ConfigRepository_load (ConfigRepository_create_backup canDelete now (lockWorld w)) with
  | .error e =>
    (.error e, unlockWorld (ConfigRepository_create_backup canDelete now (lockWorld w)))
  | .ok doc =>
    match block doc with
    | .error e =>
      (.error e, unlockWorld (ConfigRepository_create_backup canDelete now (lockWorld w)))
    | .ok (doc2, a) =>
      (.ok a, unlockWorld (ConfigRepository_save
        (ConfigRepository_create_backup canDelete now (lockWorld w)) doc2))

/-- `DockerController.restart` on the happy path (container present):
restart the container.  Container-absence failures are orthogonal to every
claim and are not modelled. -/
def DockerController_restart (w : World) : World :=
  { w with events := w.events ++ [.restart] }

/-- `DockerController.reload_config` on the happy path: send SIGHUP. -/
def DockerController_reload_config (w : World) : World :=
  { w with events := w.events ++ [.reloadSignal] }

/-!
## In-place document mutation

The Python services mutate the loaded document through references: the
inbound returned by the lookup is an element of `config['inbounds']`, so
assigning into it mutates `config`.  JSON documents are trees (no sharing
beyond these references), so the mutation is reconstructed functionally:
replace the first selector-matching inbound — the one the lookup
returned — by its mutated version.
-/

/-- Python `d[k] = v` on a dict: replace the binding in place (keeping its
position) or append a new binding at the end. -/
def setField : List (String × JValue) → String → JValue → List (String × JValue)
  | [], key, v => [(key, v)]
  | (k, v0) :: rest, key, v =>
    if k = key then (key, v) :: rest else (k, v0) :: setField rest key v

/-- `d[k] = v` lifted to values; assignment into a non-dict is unreachable
in the modelled paths (they subscripted the same value beforehand). -/
def JValue.setKey : JValue → String → JValue → JValue
  | .obj fields, key, v => .obj (setField fields key v)
  | j, _, _ => j

/-- Replace the first element satisfying `p` by `f` of it. -/
def replaceFirstMatching (p : JValue → Bool) (f : JValue → JValue) :
    List JValue → List JValue
  | [] => []
  | x :: xs => if p x then f x :: xs else x :: replaceFirstMatching p f xs

/-- The effect on the whole document of mutating, through the reference
returned by the inbound lookup, the first selector-matching inbound. -/
def updateRealityInbound (config : JValue) (f : JValue → JValue) : JValue :=
  match config.get "inbounds" with
  | some (.arr xs) =>
    config.setKey "inbounds" (.arr (replaceFirstMatching isRealityInbound f xs))
  | _ => config

/-- The relevant fields of the module-level `settings` singleton
(src/config/settings.py): `str(settings.SERVER_IP)` and
`settings.XRAY_PUB_KEY`, passed explicitly. -/
structure AppSettings where
  serverIp : String
  xrayPubKey : String

/-- Embedding of `UserService._generate_link`: renders the `vless://`
connection string from the inbound's port / realitySettings and the
settings singleton.  Note the parameter order of the query string, the
extra `headerType=none` parameter, and that `pub_key` is interpolated
verbatim (not percent-encoded). -/
def UserService_generate_link (s : AppSettings) (userUuid email : String)
    (inbound : JValue) : Except PyError String := do
  let port ← inbound.index "port"
  let stream ← inbound.index "streamSettings"
  let reality ← stream.index "realitySettings"
  let serverNames ← reality.index "serverNames"
  let sni ← serverNames.at0
  let shortIds ← reality.index "shortIds"
  let sid ← shortIds.at0
  let fp := (reality.get "fingerprint").getD (.str "chrome")
  let spx := (reality.get "spiderX").getD (.str "")
  let link :=
    "vless://" ++ userUuid ++ "@" ++ s.serverIp ++ ":" ++ pyStr port ++
      "?security=reality" ++
      "&encryption=none" ++
      "&pbk=" ++ s.xrayPubKey ++
      "&headerType=none" ++
      "&fp=" ++ pyStr fp ++
      "&type=tcp" ++
      "&flow=xtls-rprx-vision" ++
      "&sni=" ++ pyStr sni ++
      "&sid=" ++ pyStr sid
  let link := if spx.truthy then link ++ "&spx=" ++ pyStr spx else link
  return link ++ "#" ++ email

/-- The fresh client record `{'id': uuid, 'flow': 'xtls-rprx-vision',
'email': email}` built by `UserService.add_user`. -/
def newClientRecord (newUuid email : String) : JValue :=
  .obj [("id", .str newUuid), ("flow", .str "xtls-rprx-vision"), ("email", .str email)]

/-- Embedding of `UserService.add_user`: load the config, find the VLESS
Reality inbound, reject a duplicate email with `ValueError`, append the
new client record, save, restart the container, and return the generated
link.  `newUuid` stands for the freshly drawn `str(uuid.uuid4())`. -/
def UserService_add_user (s : AppSettings) (w : World) (newUuid email : String) :
    Except PyError String × World :=
  match ConfigRepository_load w with
  | .error e => (.error e, w)
  | .ok config =>
  match UserService_find_vless_inbound config with
  | .error e => (.error e, w)
  | .ok inbound =>
  match inbound.index "settings" with
  | .error e => (.error e, w)
  | .ok stngs =>
  match stngs.index "clients" with
  | .error e => (.error e, w)
  | .ok clientsVal =>
  match clientsVal.asList with
  | .error e => (.error e, w)
  | .ok clients =>
  if clients.any (fun c => jStrEq (c.get "email") email) then
    (.error (.valueError ("User \x27" ++ email ++ "\x27 already exists.")), w)
  else
    let inbound2 := inbound.setKey "settings"
      (stngs.setKey "clients" (.arr (clients ++ [newClientRecord newUuid email])))
    let config2 := updateRealityInbound config (fun _ => inbound2)
    let w1 := ConfigRepository_save w config2
    let w2 := DockerController_restart w1
    (UserService_generate_link s newUuid email inbound2, w2)

/-- Embedding of `UserService.remove_user`: load, find the inbound, filter
the client list by email, and — only when the list shrank — save and
restart, returning whether a record was removed. -/
def UserService_remove_user (w : World) (email : String) :
    Except PyError Bool × World :=
  match ConfigRepository_load w with
  | .error e => (.error e, w)
  | .ok config =>
  match UserService_find_vless_inbound config with
  | .error e => (.error e, w)
  | .ok inbound =>
  match inbound.index "settings" with
  | .error e => (.error e, w)
  | .ok stngs =>
  match stngs.index "clients" with
  | .error e => (.error e, w)
  | .ok clientsVal =>
  match clientsVal.asList with
  | .error e => (.error e, w)
  | .ok clients =>
  let newClients := clients.filter (fun c => !(jStrEq (c.get "email") email))
  let inbound2 := inbound.setKey "settings" (stngs.setKey "clients" (.arr newClients))
  let config2 := updateRealityInbound config (fun _ => inbound2)
  if newClients.length < clients.length then
    (.ok true, DockerController_restart (ConfigRepository_save w config2))
  else
    (.ok false, w)

/-!
## `urllib.parse.quote` and `RealityHandler.generate_link`
-/

/-- Uppercase hex digit of a value below 16. -/
def hexDigit (n : Nat) : Char :=
  if n < 10 then Char.ofNat (48 + n) else Char.ofNat (55 + n)

/-- UTF-8 bytes of a character (as naturals below 256). -/
def utf8Bytes (c : Char) : List Nat :=
  let n := c.toNat
  if n < 0x80 then [n]
  else if n < 0x800 then [0xC0 + n / 0x40, 0x80 + n % 0x40]
  else if n < 0x10000 then
    [0xE0 + n / 0x1000, 0x80 + (n / 0x40) % 0x40, 0x80 + n % 0x40]
  else
    [0xF0 + n / 0x40000, 0x80 + (n / 0x1000) % 0x40,
      0x80 + (n / 0x40) % 0x40, 0x80 + n % 0x40]

/-- Characters `urllib.parse.quote` leaves unescaped with the default
`safe='/'`: ASCII alphanumerics, `_.-~` and `/`. -/
def quoteSafe (c : Char) : Bool :=
  (c.isAlpha && c.toNat < 128) || c.isDigit ||
    c == '_' || c == '.' || c == '-' || c == '~' || c == '/'

/-- Embedding of `urllib.parse.quote(s)` (default `safe='/'`): keep safe
characters, percent-encode the UTF-8 bytes of everything else with
uppercase hex. -/
def pyQuote (s : String) : String :=
  s.data.foldl
    (fun acc c =>
      if quoteSafe c then acc.push c
      else (utf8Bytes c).foldl
        (fun a b => (a.push '%' |>.push (hexDigit (b / 16))).push (hexDigit (b % 16)))
        acc)
    ""

/-- The `pub_key = kwargs.get('pub_key'); if not pub_key: raise ValueError`
prologue of `RealityHandler.generate_link`. -/
def kwargPubKey : Option String → Except PyError String
  | some k =>
    if k = "" then .error (.valueError "Public Key is required for Reality links.")
    else .ok k
  | none => .error (.valueError "Public Key is required for Reality links.")

/-- Embedding of `RealityHandler.generate_link`
(src/core/protocols/reality.py): requires a truthy `pub_key` kwarg, then
renders the link with the query parameters in the order `security`, `sni`,
`fp`, `pbk` (percent-encoded), `sid`, `type`, `flow`, `encryption`,
optional `spx`, then `#email`. -/
def RealityHandler_generate_link (inbound : JValue) (userId email host : String)
    (pubKey : Option String) : Except PyError String := do
  let pk ← kwargPubKey pubKey
  let port ← inbound.index "port"
  let stream ← inbound.index "streamSettings"
  let reality ← stream.index "realitySettings"
  let serverNames ← reality.index "serverNames"
  let sni ← serverNames.at0
  let shortIds ← reality.index "shortIds"
  let sid ← shortIds.at0
  let fp := (reality.get "fingerprint").getD (.str "chrome")
  let spx := (reality.get "spiderX").getD (.str "")
  let link :=
    "vless://" ++ userId ++ "@" ++ host ++ ":" ++ pyStr port ++
      "?security=reality" ++
      "&sni=" ++ pyStr sni ++
      "&fp=" ++ pyStr fp ++
      "&pbk=" ++ pyQuote pk ++
      "&sid=" ++ pyStr sid ++
      "&type=tcp" ++
      "&flow=xtls-rprx-vision" ++
      "&encryption=none"
  let link := if spx.truthy then link ++ "&spx=" ++ pyStr spx else link
  return link ++ "#" ++ email

/-!
## DomainVerifier
-/

/-- Python `needle in haystack` substring test. -/
def containsSub (haystack needle : String) : Bool :=
  (pySplit haystack needle).length > 1

/-- Outcome of `socket.create_connection` + TLS handshake against port 443
of a host: a completed handshake (with its negotiated TLS version and ALPN
protocol, both possibly absent), or one of the three caught exceptions. -/
inductive TlsOutcome where
  | handshake : Option String → Option String → TlsOutcome
  | sslError : String → TlsOutcome
  | timeout : TlsOutcome
  | osError : String → TlsOutcome

/-- The network environment the verifier probes: DNS resolution
(`socket.gethostbyname`; `none` = `gaierror`) and the TCP/TLS probe,
keyed by hostname. -/
structure Network where
  resolve : String → Option String
  probe : String → TlsOutcome

/-- The host component of a netloc: after the last `@`, before the first
`:` (IPv6 bracket syntax is not modelled), lowercased — the behaviour of
`urlparse(...).hostname` on the URL shapes this tool receives. -/
def hostFromNetloc (netloc : String) : String :=
  let hostinfo := (pySplit netloc "@").getLastD ""
  ((pySplit hostinfo ":").headD "").toLower

/-- Embedding of `DomainVerifier.extract_hostname`: prefix `https://` when
no scheme separator is present, then take the hostname of the parsed URL,
falling back to the (possibly prefixed) input when it is empty. -/
def DomainVerifier_extract_hostname (urlOrDomain : String) : String :=
  let u := if containsSub urlOrDomain "://" then urlOrDomain
           else "https://" ++ urlOrDomain
  let afterScheme := String.intercalate "://" ((pySplit u "://").drop 1)
  let netloc := afterScheme.takeWhile (fun c => !(c == '/' || c == '?' || c == '#'))
  let hostname := hostFromNetloc netloc
  if hostname = "" then u else hostname

/-- Python truthiness of the optional `forbidden_ip` argument combined
with the equality test: `if forbidden_ip and target_ip == forbidden_ip`. -/
def forbiddenHit (forbiddenIp : Option String) (targetIp : String) : Bool :=
  match forbiddenIp with
  | some f => f ≠ "" && targetIp = f
  | none => false

/-- Embedding of `DomainVerifier.verify`: resolve the hostname, reject a
resolution to the forbidden (own-server) address or to a loopback or
unspecified address, and only then probe port 443, requiring TLS 1.2/1.3
and negotiated ALPN `h2`.  The socket timeout bounds real time and has no
functional content here. -/
def DomainVerifier_verify (net : Network) (domain : String)
    (forbiddenIp : Option String) : Bool × String :=
  let hostname := DomainVerifier_extract_hostname domain
  match net.resolve hostname with
  | none => (false, "DNS resolution failed for \x27" ++ hostname ++ "\x27")
  | some targetIp =>
    if forbiddenHit forbiddenIp targetIp then
      (false, "Domain resolves to this server\x27s IP (" ++ targetIp ++
        "). This would cause a routing loop.")
    else if targetIp = "127.0.0.1" || targetIp = "::1" || targetIp = "0.0.0.0" then
      (false, "Domain resolves to a local/loopback address.")
    else
      match net.probe hostname with
      | .handshake tlsVersion alpnProto =>
        if !(tlsVersion = some "TLSv1.3" || tlsVersion = some "TLSv1.2") then
          (false, "Unsupported TLS version: " ++
            (match tlsVersion with | some v => v | none => "None") ++
            ". Reality requires TLS 1.3 or 1.2.")
        else if alpnProto ≠ some "h2" then
          (false, "HTTP/2 not supported (ALPN: " ++
            (match alpnProto with | some p => p | none => "None") ++
            "). Browsers expect h2 for modern sites.")
        else
          (true, "Compatible! IP: " ++ targetIp ++ " | Proto: " ++
            (match tlsVersion with | some v => v | none => "None") ++
            " | ALPN: " ++ (match alpnProto with | some p => p | none => "None"))
      | .sslError reason => (false, "SSL Handshake failed: " ++ reason)
      | .timeout => (false, "Connection timed out (Port 443 unreachable).")
      | .osError msg => (false, "Network error: " ++ msg)

/-!
## Traffic stats parsing (`DockerController`)
-/

/-- Python `int(s)` on a string: strip surrounding whitespace, optional
sign, then a non-empty run of decimal digits (digit-group underscores are
not modelled; no claim uses them).  `none` models the raised
`ValueError`. -/
def parsePyIntStr (s : String) : Option Int :=
  let t := pyStrip s
  let core := if charsPrefix ['-'] t.data || charsPrefix ['+'] t.data then t.drop 1 else t
  if core.length > 0 && core.data.all Char.isDigit then
    let mag : Int := core.data.foldl (fun acc c => acc * 10 + (c.toNat - 48 : Nat)) 0
    some (if charsPrefix ['-'] t.data then -mag else mag)
  else none

/-- Python `int(value)` on a JSON value: identity on integers, 0/1 on
booleans, string parsing as above, `TypeError` otherwise. -/
def pyInt : JValue → Except PyError Int
  | .num n => .ok n
  | .bool b => .ok (if b then 1 else 0)
  | .str s =>
    match parsePyIntStr s with
    | some n => .ok n
    | none => .error (.valueError ("invalid literal for int() with base 10: " ++ s))
  | _ => .error (.typeError "int() argument must be a string or a number")

/-- The accumulating `stats` dict of `_parse_stats`:
alias ↦ (up, down), insertion-ordered like a Python dict. -/
def statsFind : List (String × Int × Int) → String → Option (Int × Int)
  | [], _ => none
  | (k, ud) :: rest, key => if k = key then some ud else statsFind rest key

/-- `stats[email]['up'] = v`. -/
def statsSetUp : List (String × Int × Int) → String → Int → List (String × Int × Int)
  | [], _, _ => []
  | (k, u, d) :: rest, key, v =>
    if k = key then (k, v, d) :: rest else (k, u, d) :: statsSetUp rest key v

/-- `stats[email]['down'] = v`. -/
def statsSetDown : List (String × Int × Int) → String → Int → List (String × Int × Int)
  | [], _, _ => []
  | (k, u, d) :: rest, key, v =>
    if k = key then (k, u, v) :: rest else (k, u, d) :: statsSetDown rest key v

/-- One iteration of the `for entry in data.get("stat", [])` loop of
`DockerController._parse_stats`, followed by the rest of the loop. -/
def parseStatsLoop : List (String × Int × Int) → List JValue →
    Except PyError (List (String × Int × Int))
  | stats, [] => .ok stats
  | stats, entry :: rest =>
    let nameVal := (entry.get "name").getD (.str "")
    let value := (entry.get "value").getD (.num 0)
    let name := pyStr nameVal
    if containsSub name "user>>>" && containsSub name ">>>traffic>>>" then
      let parts := pySplit name ">>>"
      if parts.length ≥ 4 then
        let email := parts.getD 1 ""
        let direction := parts.getD 3 ""
        let stats1 :=
          match statsFind stats email with
          | none => stats ++ [(email, 0, 0)]
          | some _ => stats
        if direction = "uplink" then
          match pyInt value with
          | .error e => .error e
          | .ok v => parseStatsLoop (statsSetUp stats1 email v) rest
        else if direction = "downlink" then
          match pyInt value with
          | .error e => .error e
          | .ok v => parseStatsLoop (statsSetDown stats1 email v) rest
        else parseStatsLoop stats1 rest
      else parseStatsLoop stats rest
    else parseStatsLoop stats rest

/-- Embedding of `DockerController._parse_stats` on the decoded JSON
value of the `xray api statsquery` output. -/
def DockerController_parse_stats (data : JValue) :
    Except PyError (List (String × Int × Int)) :=
  match ((data.get "stat").getD (.arr [])).asList with
  | .error e => .error e
  | .ok entries => parseStatsLoop [] entries

/-- Rendering of a `PyError` as Python renders the exception in
`f"Error fetching stats: {e}"`. -/
def pyErrMsg : PyError → String
  | .xrayError m => m
  | .valueError m => m
  | .configNotFound m => m
  | .dockerOpError m => m
  | .keyError m => m
  | .indexError m => m
  | .typeError m => m

/-- Embedding of `DockerController.get_traffic_stats` from the point where
the stats-query output has been obtained and JSON-decoded (the container
exec itself is an external collaborator): any exception raised while
parsing is caught by the blanket `except Exception` and re-raised as
`DockerOperationError`, failing the whole query. -/
def DockerController_get_traffic_stats (output : JValue) :
    Except PyError (List (String × Int × Int)) :=
  match DockerController_parse_stats output with
  | .ok stats => .ok stats
  | .error e => .error (.dockerOpError ("Error fetching stats: " ++ pyErrMsg e))

/-!
## Concrete example documents and the spec-side link format
-/

/-- A well-formed VLESS Reality inbound with the given port, serverName,
shortId, fingerprint, spiderX, and client list. -/
def mkInbound (port : Int) (sni sid fp spx : String) (clients : List JValue) : JValue :=
  .obj [("protocol", .str "vless"), ("port", .num port),
    ("streamSettings", .obj [("security", .str "reality"),
      ("realitySettings", .obj
        [("serverNames", .arr [.str sni]), ("shortIds", .arr [.str sid]),
         ("fingerprint", .str fp), ("spiderX", .str spx)])]),
    ("settings", .obj [("clients", .arr clients)])]

/-- A config document whose `inbounds` list is the given one. -/
def mkConfig (inbs : List JValue) : JValue :=
  .obj [("log", .obj [("loglevel", .str "warning")]), ("inbounds", .arr inbs)]

/-- Example settings singleton: a server address and a public key whose
percent-encoding differs from its raw form. -/
def exSettings : AppSettings := ⟨"1.2.3.4", "KEY+/="⟩

/-- Example inbound with an empty client list. -/
def exInbound : JValue := mkInbound 443 "example.com" "abcd" "chrome" "" []

/-- Example world: live config holding one non-matching and one matching
inbound, empty backup directory, lock free, empty trace. -/
def exWorld : World :=
  ⟨some (mkConfig [.obj [("protocol", .str "http"), ("port", .num 8080)], exInbound]),
    [], false, []⟩

/-- Example world whose matching inbound already has a client `alice`. -/
def exWorldAlice : World :=
  ⟨some (mkConfig [.obj [("protocol", .str "http"), ("port", .num 8080)],
      mkInbound 443 "example.com" "abcd" "chrome" "" [newClientRecord "u0" "alice"]]),
    [], false, []⟩

/-- Modelled from the spec: the §6 share-link format
`vless://<uuid>@<host>:<port>?security=reality&sni=<domain>&fp=<fingerprint>&pbk=<url-encoded-pubkey>&sid=<shortid>&type=tcp&flow=xtls-rprx-vision&encryption=none[&spx=<path>]#<alias>`,
stated from the spec's words for comparison with the two link generators
in the source. -/
def specLinkFormat (uuid host port sni fp pbkEncoded sid : String)
    (spx : Option String) (aliasName : String) : String :=
  "vless://" ++ uuid ++ "@" ++ host ++ ":" ++ port ++
    "?security=reality&sni=" ++ sni ++ "&fp=" ++ fp ++ "&pbk=" ++ pbkEncoded ++
    "&sid=" ++ sid ++ "&type=tcp&flow=xtls-rprx-vision&encryption=none" ++
    (match spx with | some p => "&spx=" ++ p | none => "") ++ "#" ++ aliasName

/-- Example world whose backup directory already holds 12 backups. -/
def exWorldBig : World :=
  { exWorld with backups :=
      [("config.2026-01-01_10-00-00.json", .null),
       ("config.2026-01-01_10-00-01.json", .null),
       ("config.2026-01-01_10-00-02.json", .null),
       ("config.2026-01-01_10-00-03.json", .null),
       ("config.2026-01-01_10-00-04.json", .null),
       ("config.2026-01-01_10-00-05.json", .null),
       ("config.2026-01-01_10-00-06.json", .null),
       ("config.2026-01-01_10-00-07.json", .null),
       ("config.2026-01-01_10-00-08.json", .null),
       ("config.2026-01-01_10-00-09.json", .null),
       ("config.2026-01-01_10-00-10.json", .null),
       ("config.2026-01-01_10-00-11.json", .null)] }

/-!
## Theorems
-/

/-- Claim C9: the two independent inbound-selection implementations agree
on every config document: both return the first inbound (in document
order) whose protocol is `vless` and whose `streamSettings.security` is
`reality`, and both fail with the same `XrayError` (NotFound) condition
exactly when no such inbound exists; on a document whose `inbounds` value
is not a list both fail with the same type error. -/
theorem c9_inbound_selection_agrees (config : JValue) :
    (∃ v, RealityHandler_find_inbound config = .ok v ∧
        UserService_find_vless_inbound config = .ok v ∧
        ∃ inbounds, (config.get "inbounds").getD (.arr []) = .arr inbounds ∧
          inbounds.find? isRealityInbound = some v) ∨
    (∃ inbounds, (config.get "inbounds").getD (.arr []) = .arr inbounds ∧
        inbounds.find? isRealityInbound = none ∧
        RealityHandler_find_inbound config =
          .error (.xrayError "No VLESS+Reality inbound found in configuration.") ∧
        UserService_find_vless_inbound config =
          .error (.xrayError "No VLESS+Reality inbound found in config.json")) ∨
    (RealityHandler_find_inbound config = .error (.typeError "value is not a list") ∧
        UserService_find_vless_inbound config = .error (.typeError "value is not a list") ∧
        ∀ inbounds, (config.get "inbounds").getD (.arr []) ≠ .arr inbounds) := by
  unfold RealityHandler_find_inbound UserService_find_vless_inbound
  rcases h : (config.get "inbounds").getD (.arr []) with _ | b | n | s | xs | fs
  · exact Or.inr (Or.inr (by simp [h, JValue.asList]))
  · exact Or.inr (Or.inr (by simp [h, JValue.asList]))
  · exact Or.inr (Or.inr (by simp [h, JValue.asList]))
  · exact Or.inr (Or.inr (by simp [h, JValue.asList]))
  · rcases hf : xs.find? isRealityInbound with _ | v
    · exact Or.inr (Or.inl ⟨xs, rfl, hf, by simp [h, JValue.asList, hf], by simp [h, JValue.asList, hf]⟩)
    · exact Or.inl ⟨v, by simp [h, JValue.asList, hf], by simp [h, JValue.asList, hf], xs, rfl, hf⟩
  · exact Or.inr (Or.inr (by simp [h, JValue.asList]))

/-- Claim C8: when the hostname resolves to the given (non-empty)
forbidden address, or to a loopback or unspecified address, `verify`
returns `false` with a message, and its entire result is independent of
the TCP/TLS probe — the rejection happens before any connection attempt.
(The non-emptiness side condition mirrors Python truthiness: an empty
`forbidden_ip` string means no forbidden address was given.) -/
theorem c8_verify_rejects_before_probe (net : Network) (domain ip : String)
    (forbiddenIp : Option String)
    (hres : net.resolve (DomainVerifier_extract_hostname domain) = some ip)
    (hbad : (forbiddenIp = some ip ∧ ip ≠ "") ∨
      ip = "127.0.0.1" ∨ ip = "::1" ∨ ip = "0.0.0.0") :
    (DomainVerifier_verify net domain forbiddenIp).1 = false ∧
    ∀ probe2 : String → TlsOutcome,
      DomainVerifier_verify { net with probe := probe2 } domain forbiddenIp =
        DomainVerifier_verify net domain forbiddenIp := by
  unfold DomainVerifier_verify
  simp only [hres]
  rcases hhit : forbiddenHit forbiddenIp ip with _ | _
  · have hloop : (ip = "127.0.0.1" || ip = "::1" || ip = "0.0.0.0") = true := by
      rcases hbad with ⟨hfe, hne⟩ | h | h | h
      · exfalso
        subst hfe
        simp [forbiddenHit, hne] at hhit
      · simp [h]
      · simp [h]
      · simp [h]
    simp [hhit, hloop]
  · simp [hhit]

/-- Witness for C8 at a concrete network: a host resolving to the
forbidden address is rejected, and swapping the TLS probe for one that
times out changes nothing. -/
theorem c8_verify_rejects_before_probe_witness :
    (DomainVerifier_verify
        ⟨fun _ => some "9.9.9.9", fun _ => .handshake (some "TLSv1.3") (some "h2")⟩
        "google.com" (some "9.9.9.9")).1 = false ∧
    DomainVerifier_verify
        { (⟨fun _ => some "9.9.9.9",
            fun _ => .handshake (some "TLSv1.3") (some "h2")⟩ : Network) with
          probe := fun _ => .timeout }
        "google.com" (some "9.9.9.9") =
      DomainVerifier_verify
        ⟨fun _ => some "9.9.9.9", fun _ => .handshake (some "TLSv1.3") (some "h2")⟩
        "google.com" (some "9.9.9.9") :=
  ⟨(c8_verify_rejects_before_probe _ "google.com" "9.9.9.9" _ rfl
      (Or.inl ⟨rfl, by decide⟩)).1,
    (c8_verify_rejects_before_probe _ "google.com" "9.9.9.9" _ rfl
      (Or.inl ⟨rfl, by decide⟩)).2 _⟩

/-- Claim C5: whenever the alias is already present in the located
inbound's client list, `add_user` fails with `ValueError` (the
AlreadyExists condition) and returns the world unchanged: nothing is
written to disk (no file-write event), no backup is made, and no restart
happens, so the client list — in memory and on disk — is untouched. -/
theorem c5_add_user_duplicate_rejected (s : AppSettings) (w : World)
    (newUuid email : String) (config inbound stngs clientsVal : JValue)
    (clients : List JValue)
    (h1 : ConfigRepository_load w = .ok config)
    (h2 : UserService_find_vless_inbound config = .ok inbound)
    (h3 : inbound.index "settings" = .ok stngs)
    (h4 : stngs.index "clients" = .ok clientsVal)
    (h5 : clientsVal.asList = .ok clients)
    (hdup : clients.any (fun c => jStrEq (c.get "email") email) = true) :
    UserService_add_user s w newUuid email =
      (.error (.valueError ("User \x27" ++ email ++ "\x27 already exists.")), w) := by
  unfold UserService_add_user
  simp only [h1, h2, h3, h4, h5, hdup, if_true]

/-- Witness for C5: adding `alice` to a world that already has a client
`alice` fails with the duplicate-user `ValueError` and leaves the world
unchanged. -/
theorem c5_add_user_duplicate_rejected_witness :
    UserService_add_user exSettings exWorldAlice "u1" "alice" =
      (.error (.valueError ("User \x27" ++ "alice" ++ "\x27 already exists.")),
        exWorldAlice) :=
  c5_add_user_duplicate_rejected exSettings exWorldAlice "u1" "alice"
    _ _ _ _ _ rfl rfl rfl rfl rfl (by decide)

theorem filter_ne_eq_self_of_fresh (bs : List (String × JValue)) (name : String)
    (hfresh : ∀ p ∈ bs, p.1 ≠ name) :
    bs.filter (fun p => p.1 ≠ name) = bs := by
  apply List.filter_eq_self.mpr
  intro a ha
  simpa using hfresh a ha

theorem create_backup_small (canDelete : String → Bool) (now : String) (w : World)
    (doc : JValue) (hcfg : w.config = some doc)
    (hfresh : ∀ p ∈ w.backups, p.1 ≠ backupName now)
    (hlen : w.backups.length < 10) :
    ConfigRepository_create_backup canDelete now w =
      { w with backups := w.backups ++ [(backupName now, doc)],
               events := w.events ++ [.backupCreate (backupName now)] } := by
  unfold ConfigRepository_create_backup
  rw [hcfg]
  have hput : putBackup w.backups (backupName now) doc =
      w.backups ++ [(backupName now, doc)] := by
    unfold putBackup
    rw [filter_ne_eq_self_of_fresh w.backups (backupName now) hfresh]
  have hsortlen :
      (((putBackup w.backups (backupName now) doc).map Prod.fst).insertionSort
        (· ≤ ·)).length ≤ 10 := by
    rw [(List.perm_insertionSort (· ≤ ·)
      ((putBackup w.backups (backupName now) doc).map Prod.fst)).length_eq]
    rw [List.length_map, hput, List.length_append]
    simp only [List.length_singleton]
    omega
  have htake :
      (((putBackup w.backups (backupName now) doc).map Prod.fst).insertionSort
        (· ≤ ·)).take
        ((((putBackup w.backups (backupName now) doc).map Prod.fst).insertionSort
          (· ≤ ·)).length - 10) = [] := by
    rw [Nat.sub_eq_zero_of_le hsortlen]
    exact List.take_zero _
  simp only [htake, List.filter_nil]
  have hfilter : (putBackup w.backups (backupName now) doc).filter
      (fun p => !(([] : List String).contains p.1)) =
      putBackup w.backups (backupName now) doc := by
    apply List.filter_eq_self.mpr
    intro a _
    simp [List.contains]
  rw [hfilter, hput]

/-- Claim C2: if the caller's block passed to `atomic_write` raises, the
live config file is untouched (same content, and no file-write event
occurred), exactly one new backup file has nevertheless been created, and
the lock is released on the error exit path (lock not held, release event
traced).  The freshness and size side conditions say the new timestamped
backup name is not already taken and the retention sweep has nothing to
evict (fewer than 10 existing backups). -/
theorem c2_atomic_write_error_path {α : Type} (canDelete : String → Bool)
    (now : String) (w : World) (doc : JValue) (e : PyError)
    (block : JValue → Except PyError (JValue × α))
    (hcfg : w.config = some doc)
    (hblk : block doc = .error e)
    (hfresh : ∀ p ∈ w.backups, p.1 ≠ backupName now)
    (hlen : w.backups.length < 10) :
    ConfigRepository_atomic_write canDelete now w block =
      (.error e,
        { config := w.config,
          backups := w.backups ++ [(backupName now, doc)],
          lockHeld := false,
          events := w.events ++
            [.lockAcquire, .backupCreate (backupName now), .lockRelease] }) := by
  unfold ConfigRepository_atomic_write
  rw [create_backup_small canDelete now (lockWorld w) doc hcfg hfresh hlen]
  simp only [lockWorld, unlockWorld, ConfigRepository_load, hcfg, hblk,
    List.append_assoc, List.cons_append, List.nil_append]

/-- Witness for C2: a failing block on a concrete world leaves the file
as it was, adds exactly one backup, and releases the lock. -/
theorem c2_atomic_write_error_path_witness :
    ConfigRepository_atomic_write (fun _ => true) "2026-01-01_00-00-00" exWorld
        (fun _ => (.error (.valueError "boom") : Except PyError (JValue × Unit))) =
      (.error (.valueError "boom"),
        { config := exWorld.config,
          backups := exWorld.backups ++
            [(backupName "2026-01-01_00-00-00",
              mkConfig [.obj [("protocol", .str "http"), ("port", .num 8080)], exInbound])],
          lockHeld := false,
          events := exWorld.events ++
            [.lockAcquire, .backupCreate (backupName "2026-01-01_00-00-00"),
              .lockRelease] }) :=
  c2_atomic_write_error_path (fun _ => true) "2026-01-01_00-00-00" exWorld
    (mkConfig [.obj [("protocol", .str "http"), ("port", .num 8080)], exInbound])
    (.valueError "boom") _ rfl rfl (fun p hp => absurd hp (List.not_mem_nil p))
    (by decide)

theorem length_filter_fst (bs : List (String × JValue)) (q : String → Bool) :
    (bs.filter (fun p => q p.1)).length = ((bs.map Prod.fst).filter q).length := by
  induction bs with
  | nil => rfl
  | cons x xs ih => cases hq : q x.1 <;> simp [List.filter, hq, ih]

theorem contains_eq_decide_mem (l : List String) (a : String) :
    l.contains a = decide (a ∈ l) := by
  by_cases h : a ∈ l <;> simp [h]

theorem sorted_filter_not_taken (l : List String) (k : Nat) (hnd : l.Nodup) :
    l.filter (fun x => !((l.take k).contains x)) = l.drop k := by
  set t := l.take k with ht
  set d := l.drop k with hd
  have hsplit : l = t ++ d := by rw [ht, hd, List.take_append_drop]
  have hnd2 : (t ++ d).Nodup := hsplit ▸ hnd
  have hdisj : t.Disjoint d := List.disjoint_of_nodup_append hnd2
  have h1 : t.filter (fun x => !(t.contains x)) = [] := by
    apply List.filter_eq_nil_iff.mpr
    intro a ha
    simp [contains_eq_decide_mem, ha]
  have h2 : d.filter (fun x => !(t.contains x)) = d := by
    apply List.filter_eq_self.mpr
    intro a ha
    have hna : a ∉ t := fun hmem => hdisj hmem ha
    simp [contains_eq_decide_mem, hna]
  rw [hsplit, List.filter_append, h1, h2, List.nil_append]

/-- Claim C6: creating a backup always completes the primary operation —
for every deletion oracle (including failing deletions, which the code
swallows) the function returns normally having traced exactly the backup
creation; and when the deletions succeed, at most 10 backup files remain
and every evicted file name is lexicographically ≤ every retained one
(with the second-resolution timestamp names, FIFO: oldest first).  The
`Nodup` hypothesis says the backup directory has no duplicate file
names. -/
theorem c6_backup_retention (w : World) (c : JValue) (now : String)
    (hcfg : w.config = some c)
    (hnodup : ((putBackup w.backups (backupName now) c).map Prod.fst).Nodup) :
    (∀ canDelete : String → Bool,
      (ConfigRepository_create_backup canDelete now w).events =
        w.events ++ [.backupCreate (backupName now)]) ∧
    (ConfigRepository_create_backup (fun _ => true) now w).backups.length ≤ 10 ∧
    (∀ p ∈ putBackup w.backups (backupName now) c,
      p ∉ (ConfigRepository_create_backup (fun _ => true) now w).backups →
      ∀ q ∈ (ConfigRepository_create_backup (fun _ => true) now w).backups,
        p.1 ≤ q.1) := by
  have hev : ∀ canDelete : String → Bool,
      (ConfigRepository_create_backup canDelete now w).events =
        w.events ++ [.backupCreate (backupName now)] := by
    intro canDelete
    unfold ConfigRepository_create_backup
    rw [hcfg]
  set bs1 := putBackup w.backups (backupName now) c with hbs1
  set sorted := (bs1.map Prod.fst).insertionSort (· ≤ ·) with hsorteddef
  have hback : (ConfigRepository_create_backup (fun _ => true) now w).backups =
      bs1.filter (fun p => !((sorted.take (sorted.length - 10)).contains p.1)) := by
    unfold ConfigRepository_create_backup
    rw [hcfg]
    simp [List.filter_true, hbs1, hsorteddef]
  have hperm : sorted.Perm (bs1.map Prod.fst) := List.perm_insertionSort _ _
  have hndsort : sorted.Nodup := hperm.nodup_iff.mpr hnodup
  have hsorted : sorted.Sorted (· ≤ ·) := List.sorted_insertionSort _ _
  refine ⟨hev, ?_, ?_⟩
  · rw [hback,
      length_filter_fst bs1 (fun x => !((sorted.take (sorted.length - 10)).contains x))]
    rw [← (hperm.filter _).length_eq]
    rw [sorted_filter_not_taken _ _ hndsort]
    rw [List.length_drop]
    omega
  · intro p hp hpnot q hq
    rw [hback] at hpnot hq
    have hpdel : p.1 ∈ sorted.take (sorted.length - 10) := by
      by_cases hc : ((sorted.take (sorted.length - 10)).contains p.1) = true
      · rw [contains_eq_decide_mem] at hc
        exact of_decide_eq_true hc
      · exact absurd (List.mem_filter.mpr ⟨hp, by simp [Bool.not_eq_true] at hc ⊢; simp [hc]⟩)
          hpnot
    obtain ⟨hq1, hq2⟩ := List.mem_filter.mp hq
    have hqmem : q.1 ∈ sorted := hperm.mem_iff.mpr (List.mem_map_of_mem Prod.fst hq1)
    have hqnd : q.1 ∉ sorted.take (sorted.length - 10) := by
      intro hmem
      rw [contains_eq_decide_mem] at hq2
      simp at hq2
      exact hq2 hmem
    have hqdrop : q.1 ∈ sorted.drop (sorted.length - 10) := by
      rcases List.mem_append.mp (by rw [List.take_append_drop]; exact hqmem :
        q.1 ∈ sorted.take (sorted.length - 10) ++ sorted.drop (sorted.length - 10)) with
        h | h
      · exact absurd h hqnd
      · exact h
    have hpw : List.Pairwise (· ≤ ·)
        (sorted.take (sorted.length - 10) ++ sorted.drop (sorted.length - 10)) := by
      rw [List.take_append_drop]
      exact hsorted
    exact (List.pairwise_append.mp hpw).2.2 p.1 hpdel q.1 hqdrop

/-- Witness for C6: on a directory of 12 backups plus the new one, the
backup event is traced even when every deletion fails, and with deletions
succeeding at most 10 files remain. -/
theorem c6_backup_retention_witness :
    (ConfigRepository_create_backup (fun _ => false) "2026-01-01_10-00-12"
        exWorldBig).events =
      exWorldBig.events ++ [.backupCreate (backupName "2026-01-01_10-00-12")] ∧
    (ConfigRepository_create_backup (fun _ => true) "2026-01-01_10-00-12"
        exWorldBig).backups.length ≤ 10 :=
  ⟨(c6_backup_retention exWorldBig
      (mkConfig [.obj [("protocol", .str "http"), ("port", .num 8080)], exInbound])
      "2026-01-01_10-00-12" rfl (by decide)).1 _,
    (c6_backup_retention exWorldBig
      (mkConfig [.obj [("protocol", .str "http"), ("port", .num 8080)], exInbound])
      "2026-01-01_10-00-12" rfl (by decide)).2.1⟩

/-- Counterexample to C3 as stated: on a stats dump where `alice` has the
non-integer value `"abc"` and `bob` has `"100"`, the query does not yield
0 for the bad field and keep the rest — it aborts entirely with a
`DockerOperationError` (the `int(value)` call raises `ValueError`, caught
only by the blanket handler that re-raises). -/
theorem c3_counterexample :
    DockerController_get_traffic_stats (.obj [("stat", .arr
      [.obj [("name", .str "user>>>alice>>>traffic>>>uplink"), ("value", .str "abc")],
       .obj [("name", .str "user>>>bob>>>traffic>>>uplink"), ("value", .str "100")]])]) =
      .error (.dockerOpError
        "Error fetching stats: invalid literal for int() with base 10: abc") := by
  rfl

theorem parseStatsLoop_skip (stats : List (String × Int × Int)) (entry : JValue)
    (rest : List JValue) (name : String)
    (hname : (entry.get "name").getD (.str "") = .str name)
    (hm : (containsSub name "user>>>" && containsSub name ">>>traffic>>>") = false) :
    parseStatsLoop stats (entry :: rest) = parseStatsLoop stats rest := by
  simp only [parseStatsLoop, hname, pyStr, hm, Bool.false_eq_true, if_false]

theorem parseStatsLoop_uplink (stats : List (String × Int × Int)) (entry : JValue)
    (rest : List JValue) (name alias2 : String) (v : JValue)
    (hname : (entry.get "name").getD (.str "") = .str name)
    (hval : (entry.get "value").getD (.num 0) = v)
    (hm : (containsSub name "user>>>" && containsSub name ">>>traffic>>>") = true)
    (hp : pySplit name ">>>" = ["user", alias2, "traffic", "uplink"]) :
    parseStatsLoop stats (entry :: rest) =
      (match pyInt v with
        | .error e => .error e
        | .ok i => parseStatsLoop
            (statsSetUp
              (match statsFind stats alias2 with
                | none => stats ++ [(alias2, 0, 0)]
                | some _ => stats) alias2 i) rest) := by
  simp only [parseStatsLoop, hname, hval, pyStr, hm, hp, if_true]
  norm_num [List.getD]

/-- Amended C3: entries whose `name` lacks the `user>>>`/`>>>traffic>>>`
markers are skipped and a missing `value` key defaults to 0 (via
`entry.get("value", 0)`), but an entry whose value is a non-integer string
raises `ValueError` inside `int(value)` and aborts the whole query, which
surfaces as a `DockerOperationError`; the other entries' results are
discarded. -/
theorem c3_value_parse_behaviour (n : Int) (s : String)
    (hbad : parsePyIntStr s = none) :
    DockerController_get_traffic_stats (.obj [("stat", .arr
      [.obj [("name", .str "user>>>bob>>>traffic>>>uplink"), ("value", .num n)],
       .obj [("name", .str "user>>>alice>>>traffic>>>uplink"), ("value", .str s)]])]) =
      .error (.dockerOpError
        ("Error fetching stats: invalid literal for int() with base 10: " ++ s)) ∧
    DockerController_get_traffic_stats (.obj [("stat", .arr
      [.obj [("name", .str "user>>>bob>>>traffic>>>uplink"), ("value", .num n)],
       .obj [("name", .str "user>>>alice>>>traffic>>>uplink")],
       .obj [("name", .str "not-a-marker"), ("value", .str "zz")]])]) =
      .ok [("bob", n, 0), ("alice", 0, 0)] := by
  have hsetup : statsSetUp [("bob", (0 : Int), (0 : Int))] "bob" n = [("bob", n, 0)] := by
    simp [statsSetUp]
  have hsetup2 : statsSetUp [("bob", n, (0 : Int)), ("alice", 0, 0)] "alice" 0 =
      [("bob", n, 0), ("alice", 0, 0)] := by
    simp [statsSetUp]
  constructor
  · have hps : DockerController_parse_stats (.obj [("stat", .arr
        [.obj [("name", .str "user>>>bob>>>traffic>>>uplink"), ("value", .num n)],
         .obj [("name", .str "user>>>alice>>>traffic>>>uplink"), ("value", .str s)]])]) =
        .error (.valueError ("invalid literal for int() with base 10: " ++ s)) := by
      have h0 : DockerController_parse_stats (.obj [("stat", .arr
          [.obj [("name", .str "user>>>bob>>>traffic>>>uplink"), ("value", .num n)],
           .obj [("name", .str "user>>>alice>>>traffic>>>uplink"), ("value", .str s)]])]) =
          parseStatsLoop []
            [.obj [("name", .str "user>>>bob>>>traffic>>>uplink"), ("value", .num n)],
             .obj [("name", .str "user>>>alice>>>traffic>>>uplink"), ("value", .str s)]] := rfl
      rw [h0, parseStatsLoop_uplink []
        (.obj [("name", .str "user>>>bob>>>traffic>>>uplink"), ("value", .num n)])
        _ "user>>>bob>>>traffic>>>uplink" "bob" (.num n) rfl rfl (by decide) (by decide)]
      simp only [pyInt, statsFind, List.nil_append, hsetup]
      rw [parseStatsLoop_uplink [("bob", n, 0)]
        (.obj [("name", .str "user>>>alice>>>traffic>>>uplink"), ("value", .str s)])
        _ "user>>>alice>>>traffic>>>uplink" "alice" (.str s) rfl rfl
        (by decide) (by decide)]
      simp only [pyInt, hbad]
    simp only [DockerController_get_traffic_stats, hps, pyErrMsg]
    rfl
  · have hps : DockerController_parse_stats (.obj [("stat", .arr
        [.obj [("name", .str "user>>>bob>>>traffic>>>uplink"), ("value", .num n)],
         .obj [("name", .str "user>>>alice>>>traffic>>>uplink")],
         .obj [("name", .str "not-a-marker"), ("value", .str "zz")]])]) =
        .ok [("bob", n, 0), ("alice", 0, 0)] := by
      have h0 : DockerController_parse_stats (.obj [("stat", .arr
          [.obj [("name", .str "user>>>bob>>>traffic>>>uplink"), ("value", .num n)],
           .obj [("name", .str "user>>>alice>>>traffic>>>uplink")],
           .obj [("name", .str "not-a-marker"), ("value", .str "zz")]])]) =
          parseStatsLoop []
            [.obj [("name", .str "user>>>bob>>>traffic>>>uplink"), ("value", .num n)],
             .obj [("name", .str "user>>>alice>>>traffic>>>uplink")],
             .obj [("name", .str "not-a-marker"), ("value", .str "zz")]] := rfl
      rw [h0, parseStatsLoop_uplink []
        (.obj [("name", .str "user>>>bob>>>traffic>>>uplink"), ("value", .num n)])
        _ "user>>>bob>>>traffic>>>uplink" "bob" (.num n) rfl rfl (by decide) (by decide)]
      simp only [pyInt, statsFind, List.nil_append, hsetup]
      rw [parseStatsLoop_uplink [("bob", n, 0)]
        (.obj [("name", .str "user>>>alice>>>traffic>>>uplink")])
        _ "user>>>alice>>>traffic>>>uplink" "alice" (.num 0) rfl rfl
        (by decide) (by decide)]
      simp only [pyInt]
      have hfind : statsFind [("bob", n, (0 : Int))] "alice" = none := by
        simp [statsFind]
      simp only [hfind, List.cons_append, List.nil_append]
      rw [hsetup2, parseStatsLoop_skip _
        (.obj [("name", .str "not-a-marker"), ("value", .str "zz")])
        _ "not-a-marker" rfl (by decide)]
      rfl
    simp only [DockerController_get_traffic_stats, hps]

/-- Witness for amended C3 at `n = 100`, `s = "abc"`. -/
theorem c3_value_parse_behaviour_witness :
    DockerController_get_traffic_stats (.obj [("stat", .arr
      [.obj [("name", .str "user>>>bob>>>traffic>>>uplink"), ("value", .num 100)],
       .obj [("name", .str "user>>>alice>>>traffic>>>uplink"), ("value", .str "abc")]])]) =
      .error (.dockerOpError
        ("Error fetching stats: invalid literal for int() with base 10: " ++ "abc")) ∧
    DockerController_get_traffic_stats (.obj [("stat", .arr
      [.obj [("name", .str "user>>>bob>>>traffic>>>uplink"), ("value", .num 100)],
       .obj [("name", .str "user>>>alice>>>traffic>>>uplink")],
       .obj [("name", .str "not-a-marker"), ("value", .str "zz")]])]) =
      .ok [("bob", 100, 0), ("alice", 0, 0)] :=
  c3_value_parse_behaviour 100 "abc" (by decide)

/-- Counterexample to C4 as stated: the link actually returned by
`add_user` / `get_user_link` (both call `UserService._generate_link`) on a
well-formed inbound differs from the spec's format: the query parameters
come in a different order, an extra `headerType=none` parameter is
present, and the public key is embedded verbatim, not percent-encoded. -/
theorem c4_counterexample :
    UserService_generate_link exSettings "u1" "alice" exInbound =
      .ok ("vless://u1@1.2.3.4:443?security=reality&encryption=none&pbk=KEY+/=&headerType=none&fp=chrome&type=tcp&flow=xtls-rprx-vision&sni=example.com&sid=abcd#alice") ∧
    "vless://u1@1.2.3.4:443?security=reality&encryption=none&pbk=KEY+/=&headerType=none&fp=chrome&type=tcp&flow=xtls-rprx-vision&sni=example.com&sid=abcd#alice" ≠
      specLinkFormat "u1" "1.2.3.4" "443" "example.com" "chrome" (pyQuote "KEY+/=")
        "abcd" none "alice" :=
  ⟨rfl, by decide⟩

/-- Amended C4: on a well-formed Reality inbound, the links returned by
`add_user`/`get_user_link` (via `UserService._generate_link`) have the
format
`vless://<uuid>@<serverIp>:<port>?security=reality&encryption=none&pbk=<raw-pubkey>&headerType=none&fp=<fp>&type=tcp&flow=xtls-rprx-vision&sni=<sni>&sid=<sid>[&spx=<path>]#<alias>`
with the public key embedded verbatim, while the (unused by those entry
points) `RealityHandler.generate_link` produces exactly the spec's stated
format with the public key percent-encoded. -/
theorem c4_link_formats (s : AppSettings) (uuid email host pk : String)
    (port : Int) (sni sid fp spx : String) (clients : List JValue)
    (hpk : pk ≠ "") :
    UserService_generate_link s uuid email (mkInbound port sni sid fp spx clients) =
      .ok ("vless://" ++ uuid ++ "@" ++ s.serverIp ++ ":" ++ toString port ++
        "?security=reality" ++ "&encryption=none" ++ "&pbk=" ++ s.xrayPubKey ++
        "&headerType=none" ++ "&fp=" ++ fp ++ "&type=tcp" ++
        "&flow=xtls-rprx-vision" ++ "&sni=" ++ sni ++ "&sid=" ++ sid ++
        (if spx = "" then "" else "&spx=" ++ spx) ++ "#" ++ email) ∧
    RealityHandler_generate_link (mkInbound port sni sid fp spx clients)
        uuid email host (some pk) =
      .ok (specLinkFormat uuid host (toString port) sni fp (pyQuote pk) sid
        (if spx = "" then none else some spx) email) := by
  constructor
  · by_cases hspx : spx = "" <;>
      (simp [UserService_generate_link, mkInbound, JValue.index, JValue.get, fieldGet,
        JValue.at0, JValue.truthy, pyStr, Option.getD, Except.bind, Except.map,
        Except.pure, Functor.map, bind, pure, hspx, String.append_assoc]; try rfl)
  · by_cases hspx : spx = "" <;>
      (simp [RealityHandler_generate_link, kwargPubKey, specLinkFormat, mkInbound,
        JValue.index, JValue.get, fieldGet, JValue.at0, JValue.truthy, pyStr,
        Option.getD, Except.bind, Except.map, Except.pure, Functor.map, bind, pure,
        hspx, hpk, String.append_assoc]; try rfl)

/-- Witness for amended C4 at concrete settings and inbound. -/
theorem c4_link_formats_witness :
    UserService_generate_link exSettings "u1" "alice" exInbound =
      .ok "vless://u1@1.2.3.4:443?security=reality&encryption=none&pbk=KEY+/=&headerType=none&fp=chrome&type=tcp&flow=xtls-rprx-vision&sni=example.com&sid=abcd#alice" ∧
    RealityHandler_generate_link exInbound "u1" "alice" "1.2.3.4" (some "KEY+/=") =
      .ok (specLinkFormat "u1" "1.2.3.4" "443" "example.com" "chrome"
        (pyQuote "KEY+/=") "abcd" none "alice") :=
  c4_link_formats exSettings "u1" "alice" "1.2.3.4" "KEY+/=" 443 "example.com"
    "abcd" "chrome" "" [] (by decide)

/-- Counterexample to C1 as stated: a successful `add_user` on a concrete
world traces exactly a plain file write followed by a container restart —
no exclusive-lock acquisition, no backup creation, and no
`reload_config` call ever happen (`atomic_write` is never entered; it has
no callers in the code base). -/
theorem c1_counterexample :
    (UserService_add_user exSettings exWorld "u1" "alice").1 =
      .ok "vless://u1@1.2.3.4:443?security=reality&encryption=none&pbk=KEY+/=&headerType=none&fp=chrome&type=tcp&flow=xtls-rprx-vision&sni=example.com&sid=abcd#alice" ∧
    (UserService_add_user exSettings exWorld "u1" "alice").2.events =
      [Event.fileWrite, Event.restart] ∧
    Event.lockAcquire ∉ (UserService_add_user exSettings exWorld "u1" "alice").2.events ∧
    Event.reloadSignal ∉ (UserService_add_user exSettings exWorld "u1" "alice").2.events ∧
    (UserService_add_user exSettings exWorld "u1" "alice").2.backups = [] :=
  ⟨rfl, rfl, by decide, by decide, rfl⟩

/-- Amended C1: `add_user` does not go through the scoped-mutate path at
all: on its success path it loads the document without taking the lock,
checks for a duplicate alias, appends the new client record, persists with
a plain unlocked `save` (no backup is created), and then calls the
container `restart()` — not `reload_config()` — before returning the
generated link; its whole effect trace is one file write followed by one
restart. -/
theorem c1_add_user_plain_save_restart (s : AppSettings) (w : World)
    (newUuid email : String) (config inbound stngs clientsVal : JValue)
    (clients : List JValue)
    (h1 : ConfigRepository_load w = .ok config)
    (h2 : UserService_find_vless_inbound config = .ok inbound)
    (h3 : inbound.index "settings" = .ok stngs)
    (h4 : stngs.index "clients" = .ok clientsVal)
    (h5 : clientsVal.asList = .ok clients)
    (hnodup : clients.any (fun c => jStrEq (c.get "email") email) = false) :
    UserService_add_user s w newUuid email =
      (UserService_generate_link s newUuid email
        (inbound.setKey "settings" (stngs.setKey "clients"
          (.arr (clients ++ [newClientRecord newUuid email])))),
       { w with
          config := some (updateRealityInbound config (fun _ =>
            inbound.setKey "settings" (stngs.setKey "clients"
              (.arr (clients ++ [newClientRecord newUuid email]))))),
          events := w.events ++ [.fileWrite, .restart] }) := by
  unfold UserService_add_user
  simp only [h1, h2, h3, h4, h5, hnodup, Bool.false_eq_true, if_false,
    ConfigRepository_save, DockerController_restart, List.append_assoc,
    List.cons_append, List.nil_append]

/-- Witness for amended C1 at the concrete example world. -/
theorem c1_add_user_plain_save_restart_witness :
    UserService_add_user exSettings exWorld "u2" "bob" =
      (UserService_generate_link exSettings "u2" "bob"
        (exInbound.setKey "settings"
          ((JValue.obj [("clients", .arr [])]).setKey "clients"
            (.arr ([] ++ [newClientRecord "u2" "bob"])))),
       { exWorld with
          config := some (updateRealityInbound
            (mkConfig [.obj [("protocol", .str "http"), ("port", .num 8080)], exInbound])
            (fun _ => exInbound.setKey "settings"
              ((JValue.obj [("clients", .arr [])]).setKey "clients"
                (.arr ([] ++ [newClientRecord "u2" "bob"]))))),
          events := exWorld.events ++ [.fileWrite, .restart] }) :=
  c1_add_user_plain_save_restart exSettings exWorld "u2" "bob" _ _ _ _ _
    rfl rfl rfl rfl rfl (by decide)

theorem fieldGet_setField_self (fields : List (String × JValue)) (key : String)
    (v0 v : JValue) (h : fieldGet fields key = some v0) :
    fieldGet (setField fields key v) key = some v := by
  induction fields with
  | nil => simp [fieldGet] at h
  | cons p rest ih =>
    by_cases hk : p.1 = key
    · simp [setField, fieldGet, hk]
    · simp only [fieldGet, hk, if_false] at h
      simp [setField, fieldGet, hk, ih h]

theorem fieldGet_setField_ne (fields : List (String × JValue)) (key k2 : String)
    (v : JValue) (hk : k2 ≠ key) :
    fieldGet (setField fields key v) k2 = fieldGet fields k2 := by
  induction fields with
  | nil => simp [setField, fieldGet, Ne.symm hk]
  | cons p rest ih =>
    by_cases hp : p.1 = key
    · subst hp
      simp [setField, fieldGet, Ne.symm hk, hk]
    · by_cases hp2 : p.1 = k2 <;> simp [setField, fieldGet, hp, hp2, hk, ih]

theorem get_some_obj (j : JValue) (k : String) (v : JValue) (h : j.get k = some v) :
    ∃ fields, j = .obj fields ∧ fieldGet fields k = some v := by
  cases j <;> simp [JValue.get] at h ⊢
  assumption

theorem index_ok_structure (j : JValue) (k : String) (v : JValue)
    (h : j.index k = .ok v) :
    ∃ fields, j = .obj fields ∧ fieldGet fields k = some v := by
  cases j <;> simp [JValue.index] at h ⊢
  rename_i fields
  cases hf : fieldGet fields k with
  | none =>
    rw [hf] at h
    simp at h
  | some val =>
    rw [hf] at h
    simp at h
    subst h
    rfl

theorem get_setKey_self (j : JValue) (k : String) (v0 v : JValue)
    (h : j.get k = some v0) : (j.setKey k v).get k = some v := by
  obtain ⟨fields, rfl, hf⟩ := get_some_obj j k v0 h
  simp [JValue.setKey, JValue.get, fieldGet_setField_self fields k v0 v hf]

theorem get_setKey_ne (j : JValue) (k k2 : String) (v : JValue) (hk : k2 ≠ k) :
    (j.setKey k v).get k2 = j.get k2 := by
  cases j <;> simp [JValue.setKey, JValue.get]
  rename_i fields
  exact fieldGet_setField_ne fields k k2 v hk

theorem index_setKey_self (j : JValue) (k : String) (v0 v : JValue)
    (h : j.index k = .ok v0) : (j.setKey k v).index k = .ok v := by
  obtain ⟨fields, rfl, hf⟩ := index_ok_structure j k v0 h
  simp [JValue.setKey, JValue.index, fieldGet_setField_self fields k v0 v hf]

theorem find?_eq_some_decomp {α : Type} (p : α → Bool) (xs : List α) (v : α)
    (h : xs.find? p = some v) :
    ∃ l1 l2, xs = l1 ++ v :: l2 ∧ (∀ y ∈ l1, p y = false) ∧ p v = true := by
  induction xs with
  | nil => simp [List.find?] at h
  | cons x rest ih =>
    cases hp : p x with
    | true =>
      rw [List.find?_cons_of_pos _ hp] at h
      obtain rfl : x = v := by simpa using h
      exact ⟨[], rest, rfl, by simp, hp⟩
    | false =>
      rw [List.find?_cons_of_neg _ (by simp [hp])] at h
      obtain ⟨l1, l2, rfl, hl1, hv⟩ := ih h
      exact ⟨x :: l1, l2, rfl, by simpa [hp] using hl1, hv⟩

theorem replaceFirstMatching_decomp (p : JValue → Bool) (f : JValue → JValue)
    (l1 l2 : List JValue) (v : JValue) (hl1 : ∀ y ∈ l1, p y = false)
    (hv : p v = true) :
    replaceFirstMatching p f (l1 ++ v :: l2) = l1 ++ f v :: l2 := by
  induction l1 with
  | nil => simp [replaceFirstMatching, hv]
  | cons x rest ih =>
    have hx : p x = false := hl1 x (by simp)
    simp only [List.cons_append, replaceFirstMatching, hx, Bool.false_eq_true, if_false,
      List.append_eq]
    rw [ih (fun y hy => hl1 y (by simp [hy]))]

theorem find?_parts {α : Type} (p : α → Bool) (l1 l2 : List α) (v : α)
    (hl1 : ∀ y ∈ l1, p y = false) (hv : p v = true) :
    (l1 ++ v :: l2).find? p = some v := by
  induction l1 with
  | nil => simp [List.find?_cons_of_pos _ hv]
  | cons x rest ih =>
    have hx : p x = false := hl1 x (by simp)
    simp only [List.cons_append]
    rw [List.find?_cons_of_neg _ (by simp [hx])]
    exact ih (fun y hy => hl1 y (by simp [hy]))

theorem setField_self (fields : List (String × JValue)) (key : String) (v : JValue)
    (h : fieldGet fields key = some v) : setField fields key v = fields := by
  induction fields with
  | nil => simp [fieldGet] at h
  | cons p rest ih =>
    by_cases hk : p.1 = key
    · simp only [fieldGet, hk, if_true] at h
      cases p
      simp_all [setField]
    · simp only [fieldGet, hk, if_false] at h
      simp [setField, hk, ih h]

theorem setKey_self (j : JValue) (k : String) (v : JValue) (h : j.get k = some v) :
    j.setKey k v = j := by
  obtain ⟨fields, rfl, hf⟩ := get_some_obj j k v h
  simp [JValue.setKey, setField_self fields k v hf]

theorem find_vless_ok_structure (config inbound : JValue)
    (h : UserService_find_vless_inbound config = .ok inbound) :
    ∃ xs, config.get "inbounds" = some (.arr xs) ∧
      xs.find? isRealityInbound = some inbound := by
  unfold UserService_find_vless_inbound at h
  cases hv : config.get "inbounds" with
  | none =>
    rw [hv] at h
    simp [JValue.asList] at h
  | some v =>
    rw [hv] at h
    cases v <;> simp [JValue.asList] at h
    rename_i xs
    cases hf : xs.find? isRealityInbound with
    | none =>
      rw [hf] at h
      simp at h
    | some i =>
      rw [hf] at h
      simp at h
      exact ⟨xs, rfl, by rw [hf, h]⟩

theorem find_vless_of_parts (config : JValue) (xs : List JValue) (i : JValue)
    (h : config.get "inbounds" = some (.arr xs))
    (hf : xs.find? isRealityInbound = some i) :
    UserService_find_vless_inbound config = .ok i := by
  unfold UserService_find_vless_inbound
  rw [h]
  simp [JValue.asList, hf]

theorem isRealityInbound_setKey_stngs (inbound X : JValue) :
    isRealityInbound (inbound.setKey "settings" X) = isRealityInbound inbound := by
  unfold isRealityInbound
  rw [get_setKey_ne _ _ _ _ (by decide), get_setKey_ne _ _ _ _ (by decide)]

theorem filter_length_lt_iff_any (clients : List JValue) (m : JValue → Bool) :
    ((clients.filter (fun c => !(m c))).length < clients.length) ↔
      clients.any m = true := by
  induction clients with
  | nil => simp
  | cons c cs ih =>
    cases hm : m c with
    | true =>
      simp only [List.filter, hm, Bool.not_true, List.any_cons, Bool.true_or]
      have hle := List.length_filter_le (fun c => !(m c)) cs
      simp only [List.length_cons]
      exact iff_of_true (Nat.lt_succ_of_le hle) trivial
    | false =>
      simp only [List.filter, hm, Bool.not_false, List.any_cons, Bool.false_or,
        List.length_cons]
      rw [← ih]
      exact Nat.succ_lt_succ_iff

theorem remove_user_removed (w : World) (email : String)
    (config inbound stngs clientsVal : JValue) (clients : List JValue)
    (h1 : ConfigRepository_load w = .ok config)
    (h2 : UserService_find_vless_inbound config = .ok inbound)
    (h3 : inbound.index "settings" = .ok stngs)
    (h4 : stngs.index "clients" = .ok clientsVal)
    (h5 : clientsVal.asList = .ok clients)
    (hlt : (clients.filter (fun c => !(jStrEq (c.get "email") email))).length <
      clients.length) :
    UserService_remove_user w email =
      (.ok true,
        DockerController_restart (ConfigRepository_save w
          (updateRealityInbound config (fun _ =>
            inbound.setKey "settings" (stngs.setKey "clients"
              (.arr (clients.filter
                (fun c => !(jStrEq (c.get "email") email))))))))) := by
  unfold UserService_remove_user
  simp only [h1, h2, h3, h4, h5, hlt, if_true]

theorem remove_user_unchanged (w : World) (email : String)
    (config inbound stngs clientsVal : JValue) (clients : List JValue)
    (h1 : ConfigRepository_load w = .ok config)
    (h2 : UserService_find_vless_inbound config = .ok inbound)
    (h3 : inbound.index "settings" = .ok stngs)
    (h4 : stngs.index "clients" = .ok clientsVal)
    (h5 : clientsVal.asList = .ok clients)
    (hge : ¬ ((clients.filter (fun c => !(jStrEq (c.get "email") email))).length <
      clients.length)) :
    UserService_remove_user w email = (.ok false, w) := by
  unfold UserService_remove_user
  simp only [h1, h2, h3, h4, h5, hge, if_false]

theorem remove_user_after_removal (w : World) (email : String)
    (config inbound stngs clientsVal : JValue) (clients : List JValue)
    (h1 : ConfigRepository_load w = .ok config)
    (h2 : UserService_find_vless_inbound config = .ok inbound)
    (h3 : inbound.index "settings" = .ok stngs)
    (h4 : stngs.index "clients" = .ok clientsVal)
    (h5 : clientsVal.asList = .ok clients) :
    UserService_remove_user
      (DockerController_restart (ConfigRepository_save w
        (updateRealityInbound config (fun _ =>
          inbound.setKey "settings" (stngs.setKey "clients"
            (.arr (clients.filter (fun c => !(jStrEq (c.get "email") email))))))))) email =
      (.ok false,
        DockerController_restart (ConfigRepository_save w
          (updateRealityInbound config (fun _ =>
            inbound.setKey "settings" (stngs.setKey "clients"
              (.arr (clients.filter
                (fun c => !(jStrEq (c.get "email") email))))))))) := by
  set q : JValue → Bool := fun c => !(jStrEq (c.get "email") email) with hq
  set newClients := clients.filter q with hnc
  set stngs2 := stngs.setKey "clients" (.arr newClients) with hst2
  set inbound2 := inbound.setKey "settings" stngs2 with hin2
  obtain ⟨xs, hgx, hfx⟩ := find_vless_ok_structure config inbound h2
  have hupd : updateRealityInbound config (fun _ => inbound2) =
      config.setKey "inbounds"
        (.arr (replaceFirstMatching isRealityInbound (fun _ => inbound2) xs)) := by
    unfold updateRealityInbound
    rw [hgx]
  obtain ⟨l1, l2, hxs, hl1, hpv⟩ := find?_eq_some_decomp isRealityInbound xs inbound hfx
  have hrepl : replaceFirstMatching isRealityInbound (fun _ => inbound2) xs =
      l1 ++ inbound2 :: l2 := by
    rw [hxs]
    exact replaceFirstMatching_decomp isRealityInbound (fun _ => inbound2) l1 l2
      inbound hl1 hpv
  have hp2 : isRealityInbound inbound2 = true := by
    rw [hin2, isRealityInbound_setKey_stngs]
    exact hpv
  have hfind2 : (l1 ++ inbound2 :: l2).find? isRealityInbound = some inbound2 :=
    find?_parts isRealityInbound l1 l2 inbound2 hl1 hp2
  have hg2 : (config.setKey "inbounds" (.arr (l1 ++ inbound2 :: l2))).get "inbounds" =
      some (.arr (l1 ++ inbound2 :: l2)) :=
    get_setKey_self config "inbounds" (.arr xs) (.arr (l1 ++ inbound2 :: l2)) hgx
  have hfv2 : UserService_find_vless_inbound
      (config.setKey "inbounds" (.arr (l1 ++ inbound2 :: l2))) = .ok inbound2 :=
    find_vless_of_parts _ _ _ hg2 hfind2
  have h3b : inbound2.index "settings" = .ok stngs2 :=
    index_setKey_self inbound "settings" stngs stngs2 h3
  have h4b : stngs2.index "clients" = .ok (.arr newClients) :=
    index_setKey_self stngs "clients" clientsVal (.arr newClients) h4
  have hfilt : newClients.filter q = newClients :=
    List.filter_eq_self.mpr (fun c hc => (List.mem_filter.mp hc).2)
  have hcfg2 : updateRealityInbound config (fun _ => inbound2) =
      config.setKey "inbounds" (.arr (l1 ++ inbound2 :: l2)) := by
    rw [hupd, hrepl]
  rw [hcfg2]
  exact remove_user_unchanged _ email
    (config.setKey "inbounds" (.arr (l1 ++ inbound2 :: l2))) inbound2 stngs2
    (.arr newClients) newClients rfl hfv2 h3b h4b rfl
    (by rw [hfilt]; exact lt_irrefl _)

/-- Claim C7: on a well-formed document, `remove_user` returns exactly
whether some record carried the alias; calling it again immediately
afterwards returns `false` without raising; and the container restart
(together with the file write) happens exactly in the removal case —
when nothing was removed the world is untouched. -/
theorem c7_remove_user_idempotent (w : World) (email : String)
    (config inbound stngs clientsVal : JValue) (clients : List JValue)
    (h1 : ConfigRepository_load w = .ok config)
    (h2 : UserService_find_vless_inbound config = .ok inbound)
    (h3 : inbound.index "settings" = .ok stngs)
    (h4 : stngs.index "clients" = .ok clientsVal)
    (h5 : clientsVal.asList = .ok clients) :
    ∃ b w2, UserService_remove_user w email = (.ok b, w2) ∧
      (b = true ↔ clients.any (fun c => jStrEq (c.get "email") email) = true) ∧
      UserService_remove_user w2 email = (.ok false, w2) ∧
      (b = true → w2.events = w.events ++ [.fileWrite, .restart]) ∧
      (b = false → w2 = w) := by
  by_cases hm : clients.any (fun c => jStrEq (c.get "email") email) = true
  · have hlt := (filter_length_lt_iff_any clients _).mpr hm
    refine ⟨true, _,
      remove_user_removed w email config inbound stngs clientsVal clients
        h1 h2 h3 h4 h5 hlt,
      by simp [hm],
      remove_user_after_removal w email config inbound stngs clientsVal clients
        h1 h2 h3 h4 h5,
      fun _ => ?_, by simp⟩
    simp [DockerController_restart, ConfigRepository_save]
  · have hge : ¬ ((clients.filter (fun c => !(jStrEq (c.get "email") email))).length <
        clients.length) := by
      rw [filter_length_lt_iff_any]
      exact hm
    exact ⟨false, w,
      remove_user_unchanged w email config inbound stngs clientsVal clients
        h1 h2 h3 h4 h5 hge,
      by simp [hm],
      remove_user_unchanged w email config inbound stngs clientsVal clients
        h1 h2 h3 h4 h5 hge,
      by simp, fun _ => rfl⟩

/-- Witness for C7 at the concrete world with one client `alice`. -/
theorem c7_remove_user_idempotent_witness :
    ∃ b w2, UserService_remove_user exWorldAlice "alice" = (.ok b, w2) ∧
      (b = true ↔ ([newClientRecord "u0" "alice"].any
        (fun c => jStrEq (c.get "email") "alice") = true)) ∧
      UserService_remove_user w2 "alice" = (.ok false, w2) ∧
      (b = true → w2.events = exWorldAlice.events ++ [.fileWrite, .restart]) ∧
      (b = false → w2 = exWorldAlice) :=
  c7_remove_user_idempotent exWorldAlice "alice" _ _ _ _ _ rfl rfl rfl rfl rfl

theorem asList_ok_eq (j : JValue) (xs : List JValue) (h : j.asList = .ok xs) :
    j = .arr xs := by
  cases j <;> simp [JValue.asList] at h ⊢
  exact h

theorem updateRealityInbound_eq (config : JValue) (f : JValue → JValue)
    (xs : List JValue) (hgx : config.get "inbounds" = some (.arr xs)) :
    updateRealityInbound config f =
      config.setKey "inbounds" (.arr (replaceFirstMatching isRealityInbound f xs)) := by
  unfold updateRealityInbound
  rw [hgx]

/-- Claim C10: `remove_user` removes exactly the client records whose
email equals the alias — all duplicates — from the first selector-matching
inbound, and changes nothing else: the other inbounds, the other keys of
the document, of the inbound, and of its settings are untouched; and when
no record matches, the result is `false`, the world (file, backups, trace)
is completely untouched, no restart happens, and even the in-memory
document after the unconditional list assignment is value-equal to the
original. -/
theorem c10_remove_user_frame (w : World) (email : String)
    (config inbound stngs clientsVal : JValue) (clients : List JValue)
    (h1 : ConfigRepository_load w = .ok config)
    (h2 : UserService_find_vless_inbound config = .ok inbound)
    (h3 : inbound.index "settings" = .ok stngs)
    (h4 : stngs.index "clients" = .ok clientsVal)
    (h5 : clientsVal.asList = .ok clients) :
    ((clients.any (fun c => jStrEq (c.get "email") email) = false) →
      UserService_remove_user w email = (.ok false, w) ∧
      updateRealityInbound config (fun _ =>
        inbound.setKey "settings" (stngs.setKey "clients"
          (.arr (clients.filter (fun c => !(jStrEq (c.get "email") email)))))) =
        config) ∧
    ((clients.any (fun c => jStrEq (c.get "email") email) = true) →
      ∃ xs l1 l2,
        config.get "inbounds" = some (.arr xs) ∧
        xs = l1 ++ inbound :: l2 ∧
        (∀ y ∈ l1, isRealityInbound y = false) ∧
        UserService_remove_user w email =
          (.ok true,
            { w with
                config := some (config.setKey "inbounds" (.arr (l1 ++
                  (inbound.setKey "settings" (stngs.setKey "clients"
                    (.arr (clients.filter
                      (fun c => !(jStrEq (c.get "email") email)))))) :: l2))),
                events := w.events ++ [.fileWrite, .restart] }) ∧
        (∀ c ∈ clients.filter (fun c => !(jStrEq (c.get "email") email)),
          jStrEq (c.get "email") email = false) ∧
        (∀ c ∈ clients, jStrEq (c.get "email") email = false →
          c ∈ clients.filter (fun c => !(jStrEq (c.get "email") email))) ∧
        (∀ k, k ≠ "inbounds" →
          (config.setKey "inbounds" (.arr (l1 ++
            (inbound.setKey "settings" (stngs.setKey "clients"
              (.arr (clients.filter
                (fun c => !(jStrEq (c.get "email") email)))))) :: l2))).get k =
            config.get k) ∧
        (∀ k, k ≠ "settings" →
          (inbound.setKey "settings" (stngs.setKey "clients"
            (.arr (clients.filter
              (fun c => !(jStrEq (c.get "email") email)))))).get k =
            inbound.get k) ∧
        (∀ k, k ≠ "clients" →
          (stngs.setKey "clients"
            (.arr (clients.filter
              (fun c => !(jStrEq (c.get "email") email))))).get k =
            stngs.get k)) := by
  obtain ⟨xs, hgx, hfx⟩ := find_vless_ok_structure config inbound h2
  obtain ⟨l1, l2, hxs, hl1, hpv⟩ := find?_eq_some_decomp isRealityInbound xs inbound hfx
  obtain ⟨ifields, hieq, hig⟩ := index_ok_structure inbound "settings" stngs h3
  obtain ⟨sfields, hseq, hsg⟩ := index_ok_structure stngs "clients" clientsVal h4
  have hclv : clientsVal = .arr clients := asList_ok_eq clientsVal clients h5
  have higet : inbound.get "settings" = some stngs := by rw [hieq]; exact hig
  have hsget : stngs.get "clients" = some clientsVal := by rw [hseq]; exact hsg
  constructor
  · intro hm
    have hall : ∀ c ∈ clients, (fun c => !(jStrEq (c.get "email") email)) c = true := by
      intro c hc
      cases hj : jStrEq (c.get "email") email with
      | false => simp [hj]
      | true =>
        exact absurd (List.any_eq_true.mpr ⟨c, hc, hj⟩)
          (by rw [hm]; exact Bool.false_ne_true)
    have hfilt : clients.filter (fun c => !(jStrEq (c.get "email") email)) = clients :=
      List.filter_eq_self.mpr hall
    have hge : ¬ ((clients.filter (fun c => !(jStrEq (c.get "email") email))).length <
        clients.length) := by
      rw [hfilt]
      exact lt_irrefl _
    refine ⟨remove_user_unchanged w email config inbound stngs clientsVal clients
      h1 h2 h3 h4 h5 hge, ?_⟩
    have hstk : stngs.setKey "clients"
        (.arr (clients.filter (fun c => !(jStrEq (c.get "email") email)))) = stngs := by
      rw [hfilt, ← hclv]
      exact setKey_self stngs "clients" clientsVal hsget
    have hink : inbound.setKey "settings" stngs = inbound :=
      setKey_self inbound "settings" stngs higet
    simp only [hstk, hink]
    have hrepl : replaceFirstMatching isRealityInbound (fun _ => inbound) xs = xs := by
      rw [hxs, replaceFirstMatching_decomp isRealityInbound (fun _ => inbound)
        l1 l2 inbound hl1 hpv]
    rw [updateRealityInbound_eq config _ xs hgx, hrepl]
    exact setKey_self config "inbounds" (.arr xs) hgx
  · intro hm
    have hlt := (filter_length_lt_iff_any clients _).mpr hm
    refine ⟨xs, l1, l2, hgx, hxs, hl1, ?_, ?_, ?_, ?_, ?_, ?_⟩
    · rw [remove_user_removed w email config inbound stngs clientsVal clients
        h1 h2 h3 h4 h5 hlt]
      have hupd : updateRealityInbound config (fun _ =>
          inbound.setKey "settings" (stngs.setKey "clients"
            (.arr (clients.filter (fun c => !(jStrEq (c.get "email") email)))))) =
          config.setKey "inbounds" (.arr (l1 ++
            (inbound.setKey "settings" (stngs.setKey "clients"
              (.arr (clients.filter
                (fun c => !(jStrEq (c.get "email") email)))))) :: l2)) := by
        rw [updateRealityInbound_eq config _ xs hgx, hxs,
          replaceFirstMatching_decomp isRealityInbound _ l1 l2 inbound hl1 hpv]
      rw [hupd]
      simp [DockerController_restart, ConfigRepository_save]
    · intro c hc
      have hq := (List.mem_filter.mp hc).2
      simpa using hq
    · intro c hc hj
      exact List.mem_filter.mpr ⟨hc, by simp [hj]⟩
    · intro k hk
      exact get_setKey_ne config "inbounds" k _ hk
    · intro k hk
      exact get_setKey_ne inbound "settings" k _ hk
    · intro k hk
      exact get_setKey_ne stngs "clients" k _ hk

/-- Witness for C10 at the concrete world with one client `alice`. -/
theorem c10_remove_user_frame_witness :
    (([newClientRecord "u0" "alice"].any
        (fun c => jStrEq (c.get "email") "alice") = false) →
      UserService_remove_user exWorldAlice "alice" = (.ok false, exWorldAlice) ∧
      updateRealityInbound
        (mkConfig [.obj [("protocol", .str "http"), ("port", .num 8080)],
          mkInbound 443 "example.com" "abcd" "chrome" "" [newClientRecord "u0" "alice"]])
        (fun _ =>
          (mkInbound 443 "example.com" "abcd" "chrome" ""
            [newClientRecord "u0" "alice"]).setKey "settings"
            ((JValue.obj [("clients", .arr [newClientRecord "u0" "alice"])]).setKey
              "clients"
              (.arr ([newClientRecord "u0" "alice"].filter
                (fun c => !(jStrEq (c.get "email") "alice")))))) =
        mkConfig [.obj [("protocol", .str "http"), ("port", .num 8080)],
          mkInbound 443 "example.com" "abcd" "chrome" ""
            [newClientRecord "u0" "alice"]]) ∧
    (([newClientRecord "u0" "alice"].any
        (fun c => jStrEq (c.get "email") "alice") = true) →
      ∃ xs l1 l2,
        (mkConfig [.obj [("protocol", .str "http"), ("port", .num 8080)],
          mkInbound 443 "example.com" "abcd" "chrome" ""
            [newClientRecord "u0" "alice"]]).get "inbounds" = some (.arr xs) ∧
        xs = l1 ++ (mkInbound 443 "example.com" "abcd" "chrome" ""
          [newClientRecord "u0" "alice"]) :: l2 ∧
        (∀ y ∈ l1, isRealityInbound y = false) ∧
        UserService_remove_user exWorldAlice "alice" =
          (.ok true,
            { exWorldAlice with
                config := some ((mkConfig [.obj [("protocol", .str "http"),
                    ("port", .num 8080)],
                  mkInbound 443 "example.com" "abcd" "chrome" ""
                    [newClientRecord "u0" "alice"]]).setKey "inbounds" (.arr (l1 ++
                  ((mkInbound 443 "example.com" "abcd" "chrome" ""
                    [newClientRecord "u0" "alice"]).setKey "settings"
                    ((JValue.obj [("clients",
                      .arr [newClientRecord "u0" "alice"])]).setKey "clients"
                      (.arr ([newClientRecord "u0" "alice"].filter
                        (fun c => !(jStrEq (c.get "email") "alice")))))) :: l2))),
                events := exWorldAlice.events ++ [.fileWrite, .restart] }) ∧
        (∀ c ∈ [newClientRecord "u0" "alice"].filter
            (fun c => !(jStrEq (c.get "email") "alice")),
          jStrEq (c.get "email") "alice" = false) ∧
        (∀ c ∈ [newClientRecord "u0" "alice"],
          jStrEq (c.get "email") "alice" = false →
          c ∈ [newClientRecord "u0" "alice"].filter
            (fun c => !(jStrEq (c.get "email") "alice"))) ∧
        (∀ k, k ≠ "inbounds" →
          ((mkConfig [.obj [("protocol", .str "http"), ("port", .num 8080)],
            mkInbound 443 "example.com" "abcd" "chrome" ""
              [newClientRecord "u0" "alice"]]).setKey "inbounds" (.arr (l1 ++
            ((mkInbound 443 "example.com" "abcd" "chrome" ""
              [newClientRecord "u0" "alice"]).setKey "settings"
              ((JValue.obj [("clients",
                .arr [newClientRecord "u0" "alice"])]).setKey "clients"
                (.arr ([newClientRecord "u0" "alice"].filter
                  (fun c => !(jStrEq (c.get "email") "alice")))))) :: l2))).get k =
            (mkConfig [.obj [("protocol", .str "http"), ("port", .num 8080)],
              mkInbound 443 "example.com" "abcd" "chrome" ""
                [newClientRecord "u0" "alice"]]).get k) ∧
        (∀ k, k ≠ "settings" →
          ((mkInbound 443 "example.com" "abcd" "chrome" ""
            [newClientRecord "u0" "alice"]).setKey "settings"
            ((JValue.obj [("clients", .arr [newClientRecord "u0" "alice"])]).setKey
              "clients"
              (.arr ([newClientRecord "u0" "alice"].filter
                (fun c => !(jStrEq (c.get "email") "alice")))))).get k =
            (mkInbound 443 "example.com" "abcd" "chrome" ""
              [newClientRecord "u0" "alice"]).get k) ∧
        (∀ k, k ≠ "clients" →
          ((JValue.obj [("clients", .arr [newClientRecord "u0" "alice"])]).setKey
            "clients"
            (.arr ([newClientRecord "u0" "alice"].filter
              (fun c => !(jStrEq (c.get "email") "alice"))))).get k =
            (JValue.obj [("clients", .arr [newClientRecord "u0" "alice"])]).get k)) :=
  c10_remove_user_frame exWorldAlice "alice"
    (mkConfig [.obj [("protocol", .str "http"), ("port", .num 8080)],
      mkInbound 443 "example.com" "abcd" "chrome" "" [newClientRecord "u0" "alice"]])
    (mkInbound 443 "example.com" "abcd" "chrome" "" [newClientRecord "u0" "alice"])
    (.obj [("clients", .arr [newClientRecord "u0" "alice"])])
    (.arr [newClientRecord "u0" "alice"]) [newClientRecord "u0" "alice"]
    rfl rfl rfl rfl rfl

/-- Witness for C9 at a concrete config with one non-matching and one
matching inbound. -/
theorem c9_inbound_selection_agrees_witness :
    (∃ v, RealityHandler_find_inbound
        (mkConfig [.obj [("protocol", .str "http"), ("port", .num 8080)], exInbound]) =
          .ok v ∧
        UserService_find_vless_inbound
          (mkConfig [.obj [("protocol", .str "http"), ("port", .num 8080)], exInbound]) =
          .ok v ∧
        ∃ inbounds,
          ((mkConfig [.obj [("protocol", .str "http"), ("port", .num 8080)],
            exInbound]).get "inbounds").getD (.arr []) = .arr inbounds ∧
          inbounds.find? isRealityInbound = some v) ∨
    (∃ inbounds,
        ((mkConfig [.obj [("protocol", .str "http"), ("port", .num 8080)],
          exInbound]).get "inbounds").getD (.arr []) = .arr inbounds ∧
        inbounds.find? isRealityInbound = none ∧
        RealityHandler_find_inbound
          (mkConfig [.obj [("protocol", .str "http"), ("port", .num 8080)], exInbound]) =
          .error (.xrayError "No VLESS+Reality inbound found in configuration.") ∧
        UserService_find_vless_inbound
          (mkConfig [.obj [("protocol", .str "http"), ("port", .num 8080)], exInbound]) =
          .error (.xrayError "No VLESS+Reality inbound found in config.json")) ∨
    (RealityHandler_find_inbound
        (mkConfig [.obj [("protocol", .str "http"), ("port", .num 8080)], exInbound]) =
        .error (.typeError "value is not a list") ∧
      UserService_find_vless_inbound
        (mkConfig [.obj [("protocol", .str "http"), ("port", .num 8080)], exInbound]) =
        .error (.typeError "value is not a list") ∧
      ∀ inbounds,
        ((mkConfig [.obj [("protocol", .str "http"), ("port", .num 8080)],
          exInbound]).get "inbounds").getD (.arr []) ≠ .arr inbounds) :=
  c9_inbound_selection_agrees
    (mkConfig [.obj [("protocol", .str "http"), ("port", .num 8080)], exInbound])
